import Mathlib

/-!
Verification model of the credential-reactive request lifecycle managers and of
the conversation persistence store of the angular-features-workspace repository.

Conventions of the shallow embedding:
* JavaScript strings are Lean `String`; `Date` values are `Nat` (milliseconds
  since the epoch); the JSON trees produced by `JSON.parse` and consumed by
  `JSON.stringify` are the inductive `Json` below.  The outcome of `JSON.parse`
  on a caller supplied string is `Except Unit Json`, with `Except.error ()`
  standing for the exception raised on malformed input.
* Asynchronous methods are split at their suspension point: a `...Start`
  function models the synchronous prefix up to the provider call, and a
  `...Resume` function models everything that runs when the provider promise
  settles (including the `catch` and `finally` blocks).  `AbortController`
  objects are numbered; the set of aborted controllers is a list of numbers.
* Sources of nondeterminism (`Math.random` based UUIDs, `new Date()`) are
  passed in as explicit arguments.
-/

/-- Model of the JavaScript `String.prototype.includes` substring test, used by
every `error.message?.includes(...)` check in the services. -/
def strIncludes (s pat : String) : Bool :=
  let rec go : List Char → Bool
    | [] => pat.data.isPrefixOf []
    | c :: cs => pat.data.isPrefixOf (c :: cs) || go cs
  go s.data

/-- Model of `String.prototype.substring(0, n)`: the first `n` characters. -/
def jsSubstring0 (n : Nat) (s : String) : String :=
  String.mk (s.data.take n)

/-- Model of `String.prototype.trim`: leading and trailing whitespace removed. -/
def jsTrim (s : String) : String :=
  String.mk (((s.data.dropWhile Char.isWhitespace).reverse.dropWhile Char.isWhitespace).reverse)

/-- Decimal digit to character. -/
def digitToChar (d : Nat) : Char :=
  match d with
  | 0 => '0' | 1 => '1' | 2 => '2' | 3 => '3' | 4 => '4'
  | 5 => '5' | 6 => '6' | 7 => '7' | 8 => '8' | _ => '9'

/-- Character to decimal digit (inverse of `digitToChar` on digits). -/
def charToDigit (c : Char) : Nat :=
  match c with
  | '0' => 0 | '1' => 1 | '2' => 2 | '3' => 3 | '4' => 4
  | '5' => 5 | '6' => 6 | '7' => 7 | '8' => 8 | _ => 9

/-- Little-endian decimal digits of `n` (with `fuel` making the recursion
structural; `fuel = n` is always enough). -/
def natDigitsAux : Nat → Nat → List Nat
  | 0, _ => []
  | fuel + 1, n => if n = 0 then [] else n % 10 :: natDigitsAux fuel (n / 10)

/-- Serialization of a `Date` (`Nat` milliseconds) into the string stored by
`JSON.stringify`.  The real code emits an ISO-8601 string; the model keeps the
essential properties of that encoding — an injective, decodable, non-empty
string — as the decimal rendering of the millisecond count. -/
def encodeDateStr (n : Nat) : String :=
  if n = 0 then "0" else String.mk (((natDigitsAux n n).reverse).map digitToChar)

/-- Model of `new Date(s)` for a string produced by `encodeDateStr`: decimal
parse of the character list. -/
def decodeDateStr (s : String) : Nat :=
  s.data.foldl (fun acc c => acc * 10 + charToDigit c) 0

/-- JSON value trees, as produced by `JSON.parse`. -/
inductive Json where
  | null
  | bool (b : Bool)
  | num (n : Nat)
  | str (s : String)
  | arr (xs : List Json)
  | obj (fields : List (String × Json))

/-- Property access `j[k]` on a JSON value: `none` models `undefined` (also for
access on a non-object). -/
def Json.getField (j : Json) (k : String) : Option Json :=
  match j with
  | .obj fs => fs.lookup k
  | _ => none

/-- JavaScript truthiness of a JSON value. -/
def Json.truthy (j : Json) : Bool :=
  match j with
  | .null => false
  | .bool b => b
  | .num n => n != 0
  | .str s => s != ""
  | .arr _ => true
  | .obj _ => true

/-- Truthiness of the field `k` of `j` (`undefined` is falsy). -/
def Json.truthyField (j : Json) (k : String) : Bool :=
  match j.getField k with
  | some v => v.truthy
  | none => false

/-- String-typed field access: `some s` exactly when `typeof j[k] === "string"`. -/
def Json.strField (j : Json) (k : String) : Option String :=
  match j.getField k with
  | some (.str s) => some s
  | _ => none

/-- Model of `new Date(v)` applied to an imported JSON field: a string is
parsed back with `decodeDateStr`, a number is taken as milliseconds, anything
else yields an invalid date (modelled as 0). -/
def decodeDateField (v : Option Json) : Nat :=
  match v with
  | some (.str s) => decodeDateStr s
  | some (.num n) => n
  | _ => 0

namespace ApiKeyService

/-- State of `ApiKeyService` (src/unnamed/part_008): the credential store. -/
structure State where
  apiKey : Option String
  isValidated : Bool
  hasApiKey : Bool
deriving DecidableEq

/-- Model of `ApiKeyService.markAsValidated`. -/
def markAsValidated (s : State) : State :=
  if s.apiKey.isSome then { s with isValidated := true } else s

/-- Model of `ApiKeyService.markAsInvalid`. -/
def markAsInvalid (s : State) : State :=
  { s with isValidated := false }

end ApiKeyService

/-- Error taxonomy literals shared by the per-feature `...Error` interfaces. -/
inductive ErrType where
  | API_KEY_MISSING
  | NETWORK_ERROR
  | RATE_LIMIT
  | INVALID_REQUEST
  | UNKNOWN_ERROR
deriving DecidableEq

namespace GoogleGenAiService

/-- Outcome of the `catch` block of `GoogleGenAiService.generateContent`
(src/unnamed/part_007, lines 138-166): either the failure is recognised as a
cancellation and rethrown unclassified, or it is classified into a
`GenerationError` type with a user-facing message, the flag recording whether
`apiKeyService.markAsInvalid()` is called. -/
inductive FailureStep where
  | rethrowCancelled
  | classified (errType : ErrType) (userMessage : String) (markInvalid : Bool)
deriving DecidableEq

/-- Model of the `catch (error)` handler of `generateContent`: `name` is
`error.name` and `msg` is `error.message` (the empty string when absent). -/
def handleFailure (name msg : String) : FailureStep :=
  if name == "AbortError" || strIncludes msg "cancelled" then
    .rethrowCancelled
  else if strIncludes msg "API key" || strIncludes msg "PERMISSION_DENIED" then
    .classified .API_KEY_MISSING "Invalid or unauthorized API key. Please check your API key." true
  else if strIncludes msg "rate limit" || strIncludes msg "quota" then
    .classified .RATE_LIMIT "Rate limit exceeded. Please try again later." false
  else if strIncludes msg "network" || strIncludes msg "fetch" then
    .classified .NETWORK_ERROR "Network error. Please check your internet connection." false
  else if strIncludes msg "invalid" || strIncludes msg "bad request" then
    .classified .INVALID_REQUEST "Invalid request. Please check your input parameters." false
  else if msg != "" then
    .classified .UNKNOWN_ERROR msg false
  else
    .classified .UNKNOWN_ERROR "An unexpected error occurred." false

/-- Effect of one failure-handling step on the credential store: the first
classification branch calls `apiKeyService.markAsInvalid()`. -/
def applyCredentialEffect (st : ApiKeyService.State) (f : FailureStep) : ApiKeyService.State :=
  match f with
  | .classified _ _ true => ApiKeyService.markAsInvalid st
  | _ => st

end GoogleGenAiService

namespace VideoUnderstandingService

/-- Model of the `VideoUnderstandingResponse` interface. -/
structure Response where
  analysis : String
  videoUrl : String
  prompt : String
  model : String
  timestamp : Nat
  tokensUsed : Option Nat
deriving DecidableEq

/-- Model of the `VideoUnderstandingRequest` interface. -/
structure Request where
  videoUrl : String
  prompt : String
  model : Option String
deriving DecidableEq

/-- Model of the `VideoUnderstandingError` interface. -/
structure VideoUnderstandingError where
  message : String
  errType : ErrType
  timestamp : Nat
deriving DecidableEq

/-- State of `VideoUnderstandingService`: the service fields plus the injected
`ApiKeyService`, the numbering of `AbortController` objects, the set of aborted
controllers, and a count of provider invocations (network attempts). -/
structure State where
  apiKeyService : ApiKeyService.State
  aiPresent : Bool
  isInitialized : Bool
  lastError : Option VideoUnderstandingError
  isGenerating : Bool
  currentAbortController : Option Nat
  nextControllerId : Nat
  abortedControllers : List Nat
  analyzedVideos : List Response
  providerCalls : Nat
deriving DecidableEq

/-- Model of `isReady()`. -/
def isReady (s : State) : Bool :=
  s.isInitialized && s.aiPresent && s.apiKeyService.hasApiKey

/-- Model of `cancelCurrentRequest()`: abort the current controller (when there
is one and it is not yet aborted) and clear the generating flag. -/
def cancelCurrentRequest (s : State) : State :=
  match s.currentAbortController with
  | some c =>
    if s.abortedControllers.contains c then s
    else { s with abortedControllers := c :: s.abortedControllers, isGenerating := false }
  | none => s

/-- Literal prefix stripping for the YouTube URL recogniser: the remaining
characters when `lit` is a prefix of `cs`. -/
def dropLit (lit : String) (cs : List Char) : Option (List Char) :=
  if lit.data.isPrefixOf cs then some (cs.drop lit.length) else none

/-- Character class `[a-zA-Z0-9_-]` of the YouTube video id. -/
def isYtIdChar (c : Char) : Bool :=
  c.isAlpha || c.isDigit || c == '_' || c == '-'

/-- Tail of the URL regex: an 11 character id of `isYtIdChar`, then an optional
run of non-whitespace characters, anchored at the end. -/
def ytIdAndTail (cs : List Char) : Bool :=
  decide (11 ≤ cs.length) && (cs.take 11).all isYtIdChar
    && (cs.drop 11).all (fun c => !c.isWhitespace)

/-- Part of the URL after the host: a mandatory slash, an optional
`watch?v=`, `embed/` or `v/` segment, then `ytIdAndTail`. -/
def ytAfterHost (cs : List Char) : Bool :=
  match cs with
  | '/' :: rest =>
    (["watch?v=", "embed/", "v/"].any fun p =>
      match dropLit p rest with
      | some r => ytIdAndTail r
      | none => false)
    || ytIdAndTail rest
  | _ => false

/-- Alternatives for the optional literal group `lit`: with the group matched
(when possible) and without it. -/
def optionalLit (lit : String) (cs : List Char) : List (List Char) :=
  (match dropLit lit cs with
   | some r => [r]
   | none => []) ++ [cs]

/-- Model of `isValidYouTubeUrl`, a backtracking implementation of the anchored
regex used by the service: optional `https://` or `http://`, optional `www.`,
host `youtube.com` or `youtu.be`, then `ytAfterHost`. -/
def isValidYouTubeUrl (url : String) : Bool :=
  ((optionalLit "https://" url.data) ++ (optionalLit "http://" url.data)).any fun a =>
    (optionalLit "www." a).any fun b =>
      (["youtube.com", "youtu.be"].any fun h =>
        match dropLit h b with
        | some r => ytAfterHost r
        | none => false)

/-- Outcome of the synchronous prefix of `analyzeVideo` (everything before the
provider call): a synchronous throw, or a pending provider call with the id of
the freshly created `AbortController`. -/
inductive StartOutcome where
  | threwNotReady (msg : String)
  | threwInvalidUrl (msg : String)
  | threwCancelled
  | pending (controllerId : Nat)
deriving DecidableEq

/-- Classification chain of the `catch` block of `analyzeVideo` for failures
not recognised as cancellations: result is (error type, user message, whether
`markAsInvalid` is called). -/
def classifyFailure (msg : String) : ErrType × String × Bool :=
  if strIncludes msg "API key" || strIncludes msg "PERMISSION_DENIED" then
    (.API_KEY_MISSING, "Invalid or unauthorized API key. Please check your API key.", true)
  else if strIncludes msg "rate limit" || strIncludes msg "quota" then
    (.RATE_LIMIT, "Rate limit exceeded. Please try again later.", false)
  else if strIncludes msg "network" || strIncludes msg "fetch" then
    (.NETWORK_ERROR, "Network error. Please check your internet connection.", false)
  else if strIncludes msg "invalid" || strIncludes msg "bad request" then
    (.INVALID_REQUEST, "Invalid request. Please check your video URL and prompt.", false)
  else if strIncludes msg "YouTube URL" then
    (.INVALID_REQUEST, msg, false)
  else if msg != "" then
    (.UNKNOWN_ERROR, msg, false)
  else
    (.UNKNOWN_ERROR, "An unexpected error occurred while analyzing the video.", false)

/-- Synchronous prefix of `analyzeVideo` (src lines 99-127): readiness guard,
URL validation, cancellation of any existing request, creation of a new
`AbortController`, `isGenerating := true`, `lastError := null`, the pre-start
abort check, and the issue of the provider call (counted in `providerCalls`). -/
def analyzeVideoStart (req : Request) (s : State) : State × StartOutcome :=
  if !(s.aiPresent && isReady s) then
    (s, .threwNotReady "AI video understanding service not ready. Please provide a valid API key.")
  else if !(isValidYouTubeUrl req.videoUrl) then
    (s, .threwInvalidUrl "Please provide a valid YouTube URL.")
  else
    let s1 := cancelCurrentRequest s
    let cid := s1.nextControllerId
    let s2 := { s1 with
      currentAbortController := some cid,
      nextControllerId := cid + 1,
      isGenerating := true,
      lastError := none }
    if s2.abortedControllers.contains cid then
      ({ s2 with isGenerating := false, currentAbortController := none }, .threwCancelled)
    else
      ({ s2 with providerCalls := s2.providerCalls + 1 }, .pending cid)

/-- Settlement of the provider promise: fulfilled with an optional extracted
text and token count, or rejected with an error carrying a name and message. -/
inductive ProviderOutcome where
  | fulfilled (text : Option String) (tokensUsed : Option Nat)
  | rejected (name : String) (message : String)
deriving DecidableEq

/-- Result of the resumed `analyzeVideo` call. -/
inductive ResumeOutcome where
  | ok (r : Response)
  | threwCancelled
  | threwOriginal (name : String) (message : String)
deriving DecidableEq

/-- Effects of the `finally` block of `analyzeVideo`: unconditionally clears
the generating flag and the controller slot. -/
def finallyCleanup (s : State) : State :=
  { s with isGenerating := false, currentAbortController := none }

/-- Continuation of `analyzeVideo` when the provider promise of the call whose
controller is `cid` settles (src lines 139-202): post-await abort check,
response extraction, credential validation mark, history append, the `catch`
handler with its classification chain, and the `finally` block. -/
def analyzeVideoResume (req : Request) (cid : Nat) (outcome : ProviderOutcome)
    (now : Nat) (s : State) : State × ResumeOutcome :=
  let modelUsed := req.model.getD "gemini-2.0-flash-exp"
  match outcome with
  | .fulfilled text tokens =>
    if s.abortedControllers.contains cid then
      (finallyCleanup s, .threwCancelled)
    else
      match text with
      | none =>
        let msg := "No analysis received from the AI model."
        let c := classifyFailure msg
        let s1 := if c.2.2 then { s with apiKeyService := ApiKeyService.markAsInvalid s.apiKeyService } else s
        let s2 := { s1 with lastError := some { message := c.2.1, errType := c.1, timestamp := now } }
        (finallyCleanup s2, .threwOriginal "Error" msg)
      | some t =>
        let s1 := { s with apiKeyService := ApiKeyService.markAsValidated s.apiKeyService }
        let resp : Response := { analysis := t, videoUrl := req.videoUrl, prompt := req.prompt,
                                 model := modelUsed, timestamp := now, tokensUsed := tokens }
        let s2 := { s1 with analyzedVideos := resp :: s1.analyzedVideos }
        (finallyCleanup s2, .ok resp)
  | .rejected name msg =>
    if name == "AbortError" || strIncludes msg "cancelled" then
      (finallyCleanup s, .threwCancelled)
    else
      let c := classifyFailure msg
      let s1 := if c.2.2 then { s with apiKeyService := ApiKeyService.markAsInvalid s.apiKeyService } else s
      let s2 := { s1 with lastError := some { message := c.2.1, errType := c.1, timestamp := now } }
      (finallyCleanup s2, .threwOriginal name msg)

end VideoUnderstandingService

/-- Model of the `Message` record of `database.service.ts`.  `role` is the
string `"user"` or `"assistant"` in well-formed data, but import copies the
field without validation, so the model keeps it a plain string.  The optional
generation `metadata` object is never inspected by any operation, so it is
carried as an opaque optional payload. -/
structure Message where
  id : Nat
  conversationId : String
  content : String
  role : String
  timestamp : Nat
  model : Option String
  metadata : Option String
deriving DecidableEq

/-- Data of a message before the store assigns its auto-increment id
(`Omit<Message, "id">`). -/
structure MessageData where
  conversationId : String
  content : String
  role : String
  timestamp : Nat
  model : Option String
  metadata : Option String
deriving DecidableEq

/-- Model of the `Conversation` record. -/
structure Conversation where
  id : Nat
  uuid : String
  title : String
  createdAt : Nat
  updatedAt : Nat
deriving DecidableEq

/-- Contents of the Dexie database `AIAgentDatabase`: the two tables in
primary key (insertion) order plus the auto-increment counters. -/
structure DB where
  conversations : List Conversation
  messages : List Message
  nextConversationId : Nat
  nextMessageId : Nat
deriving DecidableEq

namespace DatabaseService

/-- Fresh database. -/
def emptyDB : DB :=
  { conversations := [], messages := [], nextConversationId := 0, nextMessageId := 0 }

/-- Stable insertion of a message into a list sorted by ascending timestamp:
placed before the first entry whose timestamp is not smaller. -/
def insertByTimestamp (x : Message) : List Message → List Message
  | [] => [x]
  | y :: ys =>
    if x.timestamp ≤ y.timestamp then x :: y :: ys else y :: insertByTimestamp x ys

/-- Model of Dexie `sortBy("timestamp")`: a stable sort of the records (taken
in primary key order) by ascending timestamp. -/
def sortByTimestamp : List Message → List Message
  | [] => []
  | x :: xs => insertByTimestamp x (sortByTimestamp xs)

/-- Stable insertion of a conversation by ascending `updatedAt`. -/
def insertByUpdatedAt (x : Conversation) : List Conversation → List Conversation
  | [] => [x]
  | y :: ys =>
    if x.updatedAt ≤ y.updatedAt then x :: y :: ys else y :: insertByUpdatedAt x ys

/-- Stable sort of conversations by ascending `updatedAt`. -/
def sortByUpdatedAt : List Conversation → List Conversation
  | [] => []
  | x :: xs => insertByUpdatedAt x (sortByUpdatedAt xs)

/-- Model of `createConversation`: the fresh random uuid and the creation time
are explicit arguments.  The default title is computed from the current table
size; the `creating` hook sets both date fields to the current time.  The JS
default kicks in for an absent or falsy (empty) title argument. -/
def createConversation (uuid : String) (title : Option String) (now : Nat) (db : DB) :
    String × DB :=
  let t :=
    match title with
    | some s => if s == "" then "Conversation " ++ toString (db.conversations.length + 1) else s
    | none => "Conversation " ++ toString (db.conversations.length + 1)
  let conv : Conversation :=
    { id := db.nextConversationId, uuid := uuid, title := t, createdAt := now, updatedAt := now }
  (uuid, { db with
    conversations := db.conversations ++ [conv],
    nextConversationId := db.nextConversationId + 1 })

/-- Model of `getConversation`: first record (in primary key order) whose
`uuid` matches. -/
def getConversation (uuid : String) (db : DB) : Option Conversation :=
  db.conversations.find? (fun c => c.uuid == uuid)

/-- Model of `getMessagesForConversation`: the matching records sorted by
timestamp. -/
def getMessagesForConversation (uuid : String) (db : DB) : List Message :=
  sortByTimestamp (db.messages.filter (fun m => m.conversationId == uuid))

/-- Model of `getAllConversations`: all conversations ordered by `updatedAt`
descending. -/
def getAllConversations (db : DB) : List Conversation :=
  (sortByUpdatedAt db.conversations).reverse

/-- Model of `getConversationWithMessages`. -/
def getConversationWithMessages (uuid : String) (db : DB) :
    Option (Conversation × List Message) :=
  (getConversation uuid db).map (fun c => (c, getMessagesForConversation uuid db))

/-- Model of `getAllConversationsWithMessages`. -/
def getAllConversationsWithMessages (db : DB) : List (Conversation × List Message) :=
  (getAllConversations db).map (fun c => (c, getMessagesForConversation c.uuid db))

/-- Model of the raw table insert `this.messages.add(message)`: assigns the
auto-increment id and appends. -/
def messagesAdd (m : MessageData) (db : DB) : Nat × DB :=
  (db.nextMessageId, { db with
    messages := db.messages ++
      [{ id := db.nextMessageId, conversationId := m.conversationId, content := m.content,
         role := m.role, timestamp := m.timestamp, model := m.model, metadata := m.metadata }],
    nextMessageId := db.nextMessageId + 1 })

/-- Model of `DatabaseService.addMessage`: table insert plus the bump of the
owning conversation's `updatedAt`. -/
def addMessage (m : MessageData) (now : Nat) (db : DB) : Nat × DB :=
  let r := messagesAdd m db
  (r.1, { r.2 with
    conversations := r.2.conversations.map
      (fun c => if c.uuid == m.conversationId then { c with updatedAt := now } else c) })

/-- Model of `updateConversationTitle`. -/
def updateConversationTitle (uuid title : String) (now : Nat) (db : DB) : DB :=
  { db with
    conversations := db.conversations.map
      (fun c => if c.uuid == uuid then { c with title := title, updatedAt := now } else c) }

/-- Model of `deleteConversation` (src lines 133-140): one read-write
transaction that deletes every message of the conversation and the
conversation record itself.  The transaction is a single atomic transition of
the model. -/
def deleteConversation (uuid : String) (db : DB) : DB :=
  { db with
    messages := db.messages.filter (fun m => m.conversationId != uuid),
    conversations := db.conversations.filter (fun c => c.uuid != uuid) }

/-- Model of `updateMessage` (src lines 156-161): replaces the content of the
record with the given primary key and sets its timestamp to the current time. -/
def updateMessage (messageId : Nat) (content : String) (now : Nat) (db : DB) : DB :=
  { db with
    messages := db.messages.map
      (fun m => if m.id == messageId then { m with content := content, timestamp := now } else m) }

/-- Model of `deleteMessage`. -/
def deleteMessage (messageId : Nat) (db : DB) : DB :=
  { db with messages := db.messages.filter (fun m => m.id != messageId) }

/-- JSON encoding of a message, as `JSON.stringify` produces it (fields in
declaration order; `undefined` optional fields are omitted). -/
def encodeMessage (m : Message) : Json :=
  .obj ([("id", Json.num m.id),
         ("conversationId", Json.str m.conversationId),
         ("content", Json.str m.content),
         ("role", Json.str m.role),
         ("timestamp", Json.str (encodeDateStr m.timestamp))] ++
        (match m.model with
         | some v => [("model", Json.str v)]
         | none => []) ++
        (match m.metadata with
         | some v => [("metadata", Json.str v)]
         | none => []))

/-- JSON encoding of a `ConversationWithMessages` object. -/
def encodeConversationWithMessages (c : Conversation) (msgs : List Message) : Json :=
  .obj [("id", Json.num c.id),
        ("uuid", Json.str c.uuid),
        ("title", Json.str c.title),
        ("createdAt", Json.str (encodeDateStr c.createdAt)),
        ("updatedAt", Json.str (encodeDateStr c.updatedAt)),
        ("messages", Json.arr (msgs.map encodeMessage))]

/-- Model of `exportConversation` (src lines 167-170): `JSON.stringify` of the
conversation with its ordered messages, or null when the uuid is unknown.  The
produced string is modelled by its JSON tree. -/
def exportConversation (uuid : String) (db : DB) : Option Json :=
  (getConversationWithMessages uuid db).map (fun p => encodeConversationWithMessages p.1 p.2)

/-- Model of `exportAllConversations`. -/
def exportAllConversations (db : DB) : Json :=
  .arr ((getAllConversationsWithMessages db).map
    (fun p => encodeConversationWithMessages p.1 p.2))

/-- Model of `isValidConversationData` (src lines 246-251): a truthy value with
a string `title` and truthy `createdAt` and `updatedAt`. -/
def isValidConversationData (j : Json) : Bool :=
  j.truthy && (j.strField "title").isSome
    && j.truthyField "createdAt" && j.truthyField "updatedAt"

/-- Field decoding of one imported message object, attached to the freshly
generated conversation uuid.  Non-string `content` or `role` payloads (which
the source copies untyped) are outside the round-trip scope and modelled as
empty. -/
def decodeImportedMessage (newUuid : String) (j : Json) : MessageData :=
  { conversationId := newUuid,
    content := (j.strField "content").getD "",
    role := (j.strField "role").getD "",
    timestamp := decodeDateField (j.getField "timestamp"),
    model := j.strField "model",
    metadata := j.strField "metadata" }

/-- Import of one conversation object of the parsed batch: a valid object
consumes one fresh uuid from the supply, its conversation record is inserted
(the `creating` hook overwrites both date fields with the current time) and
its messages, when present as an array, are inserted in order via the raw
table insert.  An invalid object is skipped. -/
def importOne (now : Nat) (acc : List String × DB) (j : Json) : List String × DB :=
  if isValidConversationData j then
    let newUuid := acc.1.headD ""
    let conv : Conversation :=
      { id := acc.2.nextConversationId, uuid := newUuid,
        title := (j.strField "title").getD "", createdAt := now, updatedAt := now }
    let db1 := { acc.2 with
      conversations := acc.2.conversations ++ [conv],
      nextConversationId := acc.2.nextConversationId + 1 }
    let db2 :=
      match j.getField "messages" with
      | some (.arr ms) =>
        ms.foldl (fun dacc mj => (messagesAdd (decodeImportedMessage newUuid mj) dacc).2) db1
      | _ => db1
    (acc.1.tail, db2)
  else acc

/-- Model of `importConversations` (src lines 177-221): a parse failure is
caught and reported as `false` with the store untouched; otherwise a
non-array value is wrapped into a singleton batch, each valid entry is
imported under a freshly generated uuid (the supply `uuids` models the
successive `generateUUID()` draws), invalid entries are skipped, and the call
reports `true`. -/
def importConversations (parsed : Except Unit Json) (uuids : List String) (now : Nat)
    (db : DB) : Bool × DB :=
  match parsed with
  | .error _ => (false, db)
  | .ok data =>
    let convs := match data with | .arr xs => xs | j => [j]
    (true, (convs.foldl (importOne now) (uuids, db)).2)

end DatabaseService

namespace ConversationService

/-- State of `ConversationService`: the database, the `conversations` signal
cache and the active conversation uuid. -/
structure State where
  db : DB
  conversationsCache : List (Conversation × List Message)
  activeConversationUuid : Option String
deriving DecidableEq

/-- Model of `loadConversationsFromDatabase`: refresh the cache and, when no
conversation is active but some exist, activate the first. -/
def loadConversationsFromDatabase (st : State) : State :=
  let cws := DatabaseService.getAllConversationsWithMessages st.db
  let active :=
    match st.activeConversationUuid with
    | some u => some u
    | none => cws.head?.map (fun p => p.1.uuid)
  { st with conversationsCache := cws, activeConversationUuid := active }

/-- Model of `ConversationService.createConversation`: database insert,
activation of the new conversation, cache reload. -/
def createConversation (title : Option String) (uuid : String) (now : Nat) (st : State) :
    String × State :=
  let r := DatabaseService.createConversation uuid title now st.db
  (r.1, loadConversationsFromDatabase
    { st with db := r.2, activeConversationUuid := some r.1 })

/-- Model of `generateTitle` (src lines 245-249): the trimmed first 50
characters, with an ellipsis appended when the result is shorter than the
whole message. -/
def generateTitle (firstMessage : String) : String :=
  let title := jsTrim (jsSubstring0 50 firstMessage)
  if title.length == firstMessage.length then title else title ++ "..."

/-- Model of `ConversationService.addMessage` (src lines 52-83): resolve or
create the active conversation, insert the message, derive the title from the
first user message of a conversation whose cached transcript is empty, then
reload the cache.  `uuid` is the fresh uuid drawn when a conversation must be
created on demand. -/
def addMessage (content role : String) (metadata : Option String) (uuid : String)
    (now : Nat) (st : State) : State :=
  let r :=
    match st.activeConversationUuid with
    | some u => (u, st)
    | none => createConversation none uuid now st
  let conversationUuid := r.1
  let st1 := r.2
  let m : MessageData :=
    { conversationId := conversationUuid, content := content, role := role,
      timestamp := now, model := none, metadata := metadata }
  let st2 := { st1 with db := (DatabaseService.addMessage m now st1.db).2 }
  let st3 :=
    match st2.conversationsCache.find? (fun p => p.1.uuid == conversationUuid) with
    | some p =>
      if p.2.length == 0 && role == "user" then
        { st2 with
          db := DatabaseService.updateConversationTitle conversationUuid
            (generateTitle content) now st2.db }
      else st2
    | none => st2
  loadConversationsFromDatabase st3

/-- Model of `ConversationService.importConversations` (src lines 159-170):
delegate to the database import and reload the cache on success. -/
def importConversations (parsed : Except Unit Json) (uuids : List String) (now : Nat)
    (st : State) : Bool × State :=
  let r := DatabaseService.importConversations parsed uuids now st.db
  let st1 := { st with db := r.2 }
  (r.1, if r.1 then loadConversationsFromDatabase st1 else st1)

/-- State of the browser `localStorage` slots read by the legacy migration:
the value under `ai-agent-conversations` (as its parse outcome; `none` when
the key is absent or empty) and the value under `ai-agent-active-conversation`. -/
structure LocalStorageState where
  conversationsItem : Option (Except Unit Json)
  activeConversationItem : Option String

/-- Model of `isValidOldConversation` (src lines 251-258). -/
def isValidOldConversation (j : Json) : Bool :=
  j.truthy
    && (match j.getField "id" with | some (.str _) => true | _ => false)
    && (j.strField "title").isSome
    && (match j.getField "messages" with | some (.arr _) => true | _ => false)
    && j.truthyField "createdAt" && j.truthyField "updatedAt"

/-- Migration of one legacy conversation object: a valid object consumes one
fresh uuid, is created through `db.createConversation`, its messages are added
through `db.addMessage`, and it becomes active when its legacy id matches the
stored active id.  An invalid object is skipped. -/
def migrateOne (activeId : Option String) (now : Nat) (acc : List String × State)
    (j : Json) : List String × State :=
  if isValidOldConversation j then
    let u := acc.1.headD ""
    let st := acc.2
    let db1 := (DatabaseService.createConversation u (j.strField "title") now st.db).2
    let db2 :=
      match j.getField "messages" with
      | some (.arr ms) =>
        ms.foldl
          (fun dacc mj =>
            (DatabaseService.addMessage (DatabaseService.decodeImportedMessage u mj) now dacc).2)
          db1
      | _ => db1
    let st1 := { st with db := db2 }
    let st2 :=
      if activeId == some ((j.strField "id").getD "") then
        { st1 with activeConversationUuid := some u }
      else st1
    (acc.1.tail, st2)
  else acc

/-- Model of `migrateFromLocalStorage` (src lines 182-229): nothing to do when
the legacy key is absent; a parse failure or a non-array payload is reported
as `false` with both the store and the legacy keys untouched; an array payload
is migrated entry by entry, then (and only then) both legacy keys are removed,
the cache is reloaded and the call reports `true`. -/
def migrateFromLocalStorage (ls : LocalStorageState) (uuids : List String) (now : Nat)
    (st : State) : Bool × LocalStorageState × State :=
  match ls.conversationsItem with
  | none => (false, ls, st)
  | some (.error _) => (false, ls, st)
  | some (.ok j) =>
    match j with
    | .arr xs =>
      let st1 := (xs.foldl (migrateOne ls.activeConversationItem now) (uuids, st)).2
      (true, { conversationsItem := none, activeConversationItem := none },
        loadConversationsFromDatabase st1)
    | _ => (false, ls, st)

end ConversationService

/-! Concrete fixtures used by the trace evaluations and the witnesses. -/

/-- A ready video-understanding manager: credential present, client handle
constructed, nothing in flight. -/
def vuReady : VideoUnderstandingService.State :=
  { apiKeyService := { apiKey := some "key", isValidated := true, hasApiKey := true },
    aiPresent := true, isInitialized := true, lastError := none, isGenerating := false,
    currentAbortController := none, nextControllerId := 0, abortedControllers := [],
    analyzedVideos := [], providerCalls := 0 }

/-- An uninitialized manager: the credential is absent, no client handle. -/
def vuUninit : VideoUnderstandingService.State :=
  { apiKeyService := { apiKey := none, isValidated := false, hasApiKey := false },
    aiPresent := false, isInitialized := false, lastError := none, isGenerating := false,
    currentAbortController := none, nextControllerId := 0, abortedControllers := [],
    analyzedVideos := [], providerCalls := 0 }

/-- First request of the interleaving traces. -/
def vuReq1 : VideoUnderstandingService.Request :=
  { videoUrl := "https://www.youtube.com/watch?v=abcdefghijk", prompt := "first", model := none }

/-- Second request, with a different payload. -/
def vuReq2 : VideoUnderstandingService.Request :=
  { videoUrl := "https://www.youtube.com/watch?v=abcdefghijk", prompt := "second", model := none }

/-- Third request. -/
def vuReq3 : VideoUnderstandingService.Request :=
  { videoUrl := "https://www.youtube.com/watch?v=abcdefghijk", prompt := "third", model := none }

/-- A credential store holding a validated key. -/
def apiKeyValidState : ApiKeyService.State :=
  { apiKey := some "key", isValidated := true, hasApiKey := true }

/-- The list of messages the import loop inserts for an exported message list
`ms`, starting at auto-increment id `startId` under the fresh uuid. -/
def importedMessages (newUuid : String) : Nat → List Message → List Message
  | _, [] => []
  | startId, m :: rest =>
    { id := startId, conversationId := newUuid, content := m.content, role := m.role,
      timestamp := m.timestamp, model := m.model, metadata := m.metadata } ::
      importedMessages newUuid (startId + 1) rest

/-- A one-conversation store with a two-message transcript (for the round-trip
witness). -/
def convOrig : Conversation :=
  { id := 0, uuid := "orig", title := "T", createdAt := 1, updatedAt := 1 }

/-- Database of the round-trip witness. -/
def dbOrig : DB :=
  { conversations := [convOrig],
    messages :=
      [{ id := 0, conversationId := "orig", content := "Hello", role := "user", timestamp := 5,
         model := none, metadata := none },
       { id := 1, conversationId := "orig", content := "Hi", role := "assistant", timestamp := 7,
         model := some "m", metadata := some "x" }],
    nextConversationId := 1, nextMessageId := 2 }

/-- Earlier message of the update-message store. -/
def msgA : Message :=
  { id := 1, conversationId := "c", content := "a", role := "user", timestamp := 10,
    model := none, metadata := none }

/-- Later message of the update-message store. -/
def msgB : Message :=
  { id := 2, conversationId := "c", content := "b", role := "assistant", timestamp := 20,
    model := none, metadata := none }

/-- A store with one conversation and the two messages above. -/
def dbTwo : DB :=
  { conversations := [{ id := 0, uuid := "c", title := "T", createdAt := 1, updatedAt := 1 }],
    messages := [msgA, msgB],
    nextConversationId := 1, nextMessageId := 3 }

/-- Conversation of the title-derivation witness. -/
def convNine : Conversation :=
  { id := 0, uuid := "c9", title := "Conversation 1", createdAt := 1, updatedAt := 1 }

/-- Service state of the title-derivation witness: one just-created empty
conversation, active, cache in sync. -/
def stNine : ConversationService.State :=
  { db := { conversations := [convNine], messages := [], nextConversationId := 1, nextMessageId := 0 },
    conversationsCache := [(convNine, [])],
    activeConversationUuid := some "c9" }

/-- Trace step: first invoke on the ready manager (controller 0 created). -/
def vuTrace1 : VideoUnderstandingService.State × VideoUnderstandingService.StartOutcome :=
  VideoUnderstandingService.analyzeVideoStart vuReq1 vuReady

/-- Trace step: second invoke while the first is in flight (aborts controller 0,
creates controller 1). -/
def vuTrace2 : VideoUnderstandingService.State × VideoUnderstandingService.StartOutcome :=
  VideoUnderstandingService.analyzeVideoStart vuReq2 vuTrace1.1

/-- Trace step: the superseded first call's provider promise rejects with a
network failure while the second call is still awaiting its own provider
outcome. -/
def vuTrace3 : VideoUnderstandingService.State × VideoUnderstandingService.ResumeOutcome :=
  VideoUnderstandingService.analyzeVideoResume vuReq1 0
    (.rejected "Error" "network error") 100 vuTrace2.1

/-- Single-flight trace, step 1: first invoke (controller 0). -/
def sfTrace1 : VideoUnderstandingService.State × VideoUnderstandingService.StartOutcome :=
  VideoUnderstandingService.analyzeVideoStart vuReq1 vuReady

/-- Single-flight trace, step 2: second invoke supersedes the first
(controller 0 aborted, controller 1 created). -/
def sfTrace2 : VideoUnderstandingService.State × VideoUnderstandingService.StartOutcome :=
  VideoUnderstandingService.analyzeVideoStart vuReq2 sfTrace1.1

/-- Single-flight trace, step 3: the superseded first call's provider promise
fulfils; its resumed body runs the cancellation rethrow and the `finally`
block, which clears the shared controller slot that now belongs to call 2. -/
def sfTrace3 : VideoUnderstandingService.State × VideoUnderstandingService.ResumeOutcome :=
  VideoUnderstandingService.analyzeVideoResume vuReq1 0
    (.fulfilled (some "A1") none) 100 sfTrace2.1

/-- Single-flight trace, step 4: third invoke, issued while call 2 is still in
flight. -/
def sfTrace4 : VideoUnderstandingService.State × VideoUnderstandingService.StartOutcome :=
  VideoUnderstandingService.analyzeVideoStart vuReq3 sfTrace3.1

/-- Single-flight trace, step 5: call 2's provider promise fulfils after call 3
was issued. -/
def sfTrace5 : VideoUnderstandingService.State × VideoUnderstandingService.ResumeOutcome :=
  VideoUnderstandingService.analyzeVideoResume vuReq2 1
    (.fulfilled (some "A2") none) 101 sfTrace4.1

/-- Single-flight trace, step 6: call 3's provider promise fulfils. -/
def sfTrace6 : VideoUnderstandingService.State × VideoUnderstandingService.ResumeOutcome :=
  VideoUnderstandingService.analyzeVideoResume vuReq3 2
    (.fulfilled (some "A3") none) 102 sfTrace5.1

/-- The store produced by importing one exported conversation into the empty
store under the fresh uuid `uNew`: one conversation record (dates overwritten
by the `creating` hook) and the re-inserted messages. -/
def importedSingletonDB (uNew : String) (c : Conversation) (now : Nat) (msgs : List Message) : DB :=
  { conversations :=
      [{ id := 0, uuid := uNew, title := c.title, createdAt := now, updatedAt := now }],
    messages := importedMessages uNew 0 msgs,
    nextConversationId := 1,
    nextMessageId := msgs.length }

/-! Helper lemmas: date codec, trimming, stable sorting, list commutations. -/

theorem charToDigit_digitToChar (d : Nat) (h : d < 10) : charToDigit (digitToChar d) = d := by
  interval_cases d <;> rfl

theorem natDigitsAux_lt_ten (fuel n d : Nat) (h : d ∈ natDigitsAux fuel n) : d < 10 := by
  induction fuel generalizing n with
  | zero => simp [natDigitsAux] at h
  | succ fuel ih =>
    by_cases hn : n = 0
    · simp [natDigitsAux, hn] at h
    · simp only [natDigitsAux, if_neg hn, List.mem_cons] at h
      rcases h with h | h
      · omega
      · exact ih _ h

theorem natDigitsAux_foldr (fuel n : Nat) (h : n ≤ fuel) :
    (natDigitsAux fuel n).foldr (fun d acc => acc * 10 + d) 0 = n := by
  induction fuel generalizing n with
  | zero =>
    have : n = 0 := by omega
    subst this
    simp [natDigitsAux]
  | succ fuel ih =>
    by_cases hn : n = 0
    · simp [natDigitsAux, hn]
    · have hdiv : n / 10 ≤ fuel := by
        have hlt : n / 10 < n := Nat.div_lt_self (Nat.pos_of_ne_zero hn) (by omega)
        omega
      simp only [natDigitsAux, if_neg hn, List.foldr_cons]
      rw [ih _ hdiv]
      omega

theorem natDigitsAux_ne_nil (n : Nat) (h : n ≠ 0) : natDigitsAux n n ≠ [] := by
  cases n with
  | zero => omega
  | succ m => simp [natDigitsAux]

theorem foldl_digit_chars (l : List Nat) (hl : ∀ d ∈ l, d < 10) (acc : Nat) :
    (l.map digitToChar).foldl (fun a c => a * 10 + charToDigit c) acc =
      l.foldl (fun a d => a * 10 + d) acc := by
  induction l generalizing acc with
  | nil => rfl
  | cons d rest ih =>
    simp only [List.map_cons, List.foldl_cons]
    rw [charToDigit_digitToChar d (hl d (by simp))]
    exact ih (fun x hx => hl x (by simp [hx])) _

theorem decodeDateStr_encodeDateStr (n : Nat) : decodeDateStr (encodeDateStr n) = n := by
  by_cases hn : n = 0
  · subst hn; rfl
  · unfold encodeDateStr decodeDateStr
    rw [if_neg hn]
    show (((natDigitsAux n n).reverse.map digitToChar).foldl
      (fun acc c => acc * 10 + charToDigit c) 0) = n
    rw [foldl_digit_chars _ (fun d hd => natDigitsAux_lt_ten n n d (by simpa using hd))]
    rw [List.foldl_reverse]
    exact natDigitsAux_foldr n n (le_refl n)

theorem encodeDateStr_ne_empty (n : Nat) : encodeDateStr n ≠ "" := by
  by_cases hn : n = 0
  · subst hn; decide
  · unfold encodeDateStr
    rw [if_neg hn]
    intro h
    have : ((natDigitsAux n n).reverse.map digitToChar) = [] := by
      have := congrArg String.data h
      simpa using this
    have := natDigitsAux_ne_nil n hn
    simp at this ⊢
    exact this (by simpa using ‹((natDigitsAux n n).reverse.map digitToChar) = []›)

theorem jsTrim_length_le (s : String) : (jsTrim s).length ≤ s.length := by
  show (((s.data.dropWhile Char.isWhitespace).reverse.dropWhile Char.isWhitespace).reverse).length ≤ s.data.length
  rw [List.length_reverse]
  calc ((s.data.dropWhile Char.isWhitespace).reverse.dropWhile Char.isWhitespace).length
      ≤ (s.data.dropWhile Char.isWhitespace).reverse.length :=
        (List.dropWhile_sublist _).length_le
    _ = (s.data.dropWhile Char.isWhitespace).length := List.length_reverse _
    _ ≤ s.data.length := (List.dropWhile_sublist _).length_le

theorem mem_insertByTimestamp (x a : Message) (l : List Message) :
    a ∈ DatabaseService.insertByTimestamp x l ↔ a = x ∨ a ∈ l := by
  induction l with
  | nil => simp [DatabaseService.insertByTimestamp]
  | cons y ys ih =>
    by_cases h : x.timestamp ≤ y.timestamp <;>
      (simp [DatabaseService.insertByTimestamp, h, ih]; try tauto)

theorem insertByTimestamp_pairwise (x : Message) (l : List Message)
    (hl : l.Pairwise (fun a b => a.timestamp ≤ b.timestamp)) :
    (DatabaseService.insertByTimestamp x l).Pairwise
      (fun a b => a.timestamp ≤ b.timestamp) := by
  induction l with
  | nil => simp [DatabaseService.insertByTimestamp]
  | cons y ys ih =>
    rcases List.pairwise_cons.mp hl with ⟨hy, hys⟩
    by_cases h : x.timestamp ≤ y.timestamp
    · simp only [DatabaseService.insertByTimestamp, if_pos h]
      refine List.pairwise_cons.mpr ⟨?_, hl⟩
      intro b hb
      rcases List.mem_cons.mp hb with rfl | hb
      · exact h
      · exact le_trans h (hy b hb)
    · simp only [DatabaseService.insertByTimestamp, if_neg h]
      refine List.pairwise_cons.mpr ⟨?_, ih hys⟩
      intro b hb
      rcases (mem_insertByTimestamp x b ys).mp hb with rfl | hb
      · omega
      · exact hy b hb

theorem sortByTimestamp_pairwise (l : List Message) :
    (DatabaseService.sortByTimestamp l).Pairwise
      (fun a b => a.timestamp ≤ b.timestamp) := by
  induction l with
  | nil => simp [DatabaseService.sortByTimestamp]
  | cons x xs ih => exact insertByTimestamp_pairwise x _ ih

theorem sortByTimestamp_eq_self (l : List Message)
    (hl : l.Pairwise (fun a b => a.timestamp ≤ b.timestamp)) :
    DatabaseService.sortByTimestamp l = l := by
  induction l with
  | nil => rfl
  | cons x xs ih =>
    rcases List.pairwise_cons.mp hl with ⟨hx, hxs⟩
    show DatabaseService.insertByTimestamp x (DatabaseService.sortByTimestamp xs) = x :: xs
    rw [ih hxs]
    cases xs with
    | nil => rfl
    | cons y ys => simp [DatabaseService.insertByTimestamp, hx y (by simp)]

theorem insertByTimestamp_append_max (x top : Message) (l : List Message)
    (h : x.timestamp ≤ top.timestamp) :
    DatabaseService.insertByTimestamp x (l ++ [top]) =
      DatabaseService.insertByTimestamp x l ++ [top] := by
  induction l with
  | nil => simp [DatabaseService.insertByTimestamp, h]
  | cons y ys ih =>
    by_cases hxy : x.timestamp ≤ y.timestamp <;>
      simp [DatabaseService.insertByTimestamp, hxy, ih]

theorem sortByTimestamp_append_max (G : List Message) (m : Message)
    (h : ∀ y ∈ G, y.timestamp ≤ m.timestamp) :
    DatabaseService.sortByTimestamp (G ++ [m]) =
      DatabaseService.sortByTimestamp G ++ [m] := by
  induction G with
  | nil => rfl
  | cons g gs ih =>
    show DatabaseService.insertByTimestamp g (DatabaseService.sortByTimestamp (gs ++ [m])) = _
    rw [ih (fun y hy => h y (by simp [hy]))]
    exact insertByTimestamp_append_max g m _ (h g (by simp))

theorem filter_map_comm {α : Type} (l : List α) (f : α → α) (p : α → Bool)
    (hp : ∀ x, p (f x) = p x) :
    (l.map f).filter p = (l.filter p).map f := by
  induction l with
  | nil => rfl
  | cons x xs ih =>
    by_cases h : p x = true
    · simp [List.filter_cons, hp, h, ih]
    · simp [List.filter_cons, hp, h, ih]

theorem map_id_of_mem {α : Type} (l : List α) (f : α → α) (h : ∀ x ∈ l, f x = x) :
    l.map f = l := by
  induction l with
  | nil => rfl
  | cons x xs ih =>
    simp only [List.map_cons, h x (by simp)]
    rw [ih (fun y hy => h y (by simp [hy]))]

theorem find?_map_comm {α : Type} (l : List α) (f : α → α) (p : α → Bool)
    (hp : ∀ x, p (f x) = p x) :
    (l.map f).find? p = (l.find? p).map f := by
  induction l with
  | nil => rfl
  | cons x xs ih =>
    by_cases h : p x = true
    · rw [List.map_cons, List.find?_cons_of_pos _ (by rw [hp]; exact h),
        List.find?_cons_of_pos _ h]
      rfl
    · rw [List.map_cons, List.find?_cons_of_neg _ (by rw [hp]; simpa using h),
        List.find?_cons_of_neg _ (by simpa using h), ih]

theorem decode_encode_message (u : String) (m : Message) :
    DatabaseService.decodeImportedMessage u (DatabaseService.encodeMessage m) =
      { conversationId := u, content := m.content, role := m.role,
        timestamp := m.timestamp, model := m.model, metadata := m.metadata } := by
  rcases m with ⟨id, cid, content, role, ts, mo, me⟩
  cases mo <;> cases me <;>
    simp [DatabaseService.decodeImportedMessage, DatabaseService.encodeMessage,
      Json.strField, Json.getField, decodeDateField, List.lookup,
      decodeDateStr_encodeDateStr]

theorem getField_encodeCWM_messages (c : Conversation) (msgs : List Message) :
    (DatabaseService.encodeConversationWithMessages c msgs).getField "messages" =
      some (.arr (msgs.map DatabaseService.encodeMessage)) := rfl

theorem strField_encodeCWM_title (c : Conversation) (msgs : List Message) :
    (DatabaseService.encodeConversationWithMessages c msgs).strField "title" =
      some c.title := rfl

theorem isValid_encodeCWM (c : Conversation) (msgs : List Message) :
    DatabaseService.isValidConversationData
      (DatabaseService.encodeConversationWithMessages c msgs) = true := by
  simp [DatabaseService.isValidConversationData, DatabaseService.encodeConversationWithMessages,
    Json.truthy, Json.truthyField, Json.strField, Json.getField, List.lookup,
    bne_iff_ne, encodeDateStr_ne_empty]

theorem foldl_messagesAdd_encode (u : String) (ms : List Message) (db : DB) :
    (ms.map DatabaseService.encodeMessage).foldl
      (fun dacc mj =>
        (DatabaseService.messagesAdd (DatabaseService.decodeImportedMessage u mj) dacc).2) db =
      { db with
        messages := db.messages ++ importedMessages u db.nextMessageId ms,
        nextMessageId := db.nextMessageId + ms.length } := by
  induction ms generalizing db with
  | nil => simp [importedMessages]
  | cons m rest ih =>
    simp only [List.map_cons, List.foldl_cons]
    rw [decode_encode_message]
    rw [ih]
    simp [DatabaseService.messagesAdd, importedMessages]
    omega

theorem importedMessages_filter_self (u : String) (k : Nat) (ms : List Message) :
    (importedMessages u k ms).filter (fun m => m.conversationId == u) =
      importedMessages u k ms := by
  induction ms generalizing k with
  | nil => rfl
  | cons m rest ih => simp [importedMessages, ih]

theorem importedMessages_map_timestamp (u : String) (k : Nat) (ms : List Message) :
    (importedMessages u k ms).map (fun m => m.timestamp) =
      ms.map (fun m => m.timestamp) := by
  induction ms generalizing k with
  | nil => rfl
  | cons m rest ih => simp [importedMessages, ih]

theorem importedMessages_map_role_content (u : String) (k : Nat) (ms : List Message) :
    (importedMessages u k ms).map (fun m => (m.role, m.content)) =
      ms.map (fun m => (m.role, m.content)) := by
  induction ms generalizing k with
  | nil => rfl
  | cons m rest ih => simp [importedMessages, ih]

theorem importedMessages_pairwise (u : String) (k : Nat) (ms : List Message)
    (h : ms.Pairwise (fun a b => a.timestamp ≤ b.timestamp)) :
    (importedMessages u k ms).Pairwise (fun a b => a.timestamp ≤ b.timestamp) := by
  have h1 : ((importedMessages u k ms).map (fun m => m.timestamp)).Pairwise
      (fun a b : Nat => a ≤ b) := by
    rw [importedMessages_map_timestamp]
    exact List.pairwise_map.mpr h
  exact List.pairwise_map.mp h1

theorem import_encodeCWM (c : Conversation) (msgs : List Message) (uNew : String) (now : Nat) :
    DatabaseService.importConversations
      (.ok (DatabaseService.encodeConversationWithMessages c msgs)) [uNew] now
      DatabaseService.emptyDB = (true, importedSingletonDB uNew c now msgs) := by
  have hv := isValid_encodeCWM c msgs
  rw [show DatabaseService.encodeConversationWithMessages c msgs =
    Json.obj [("id", Json.num c.id), ("uuid", Json.str c.uuid), ("title", Json.str c.title),
      ("createdAt", Json.str (encodeDateStr c.createdAt)),
      ("updatedAt", Json.str (encodeDateStr c.updatedAt)),
      ("messages", Json.arr (msgs.map DatabaseService.encodeMessage))] from rfl] at hv
  simp [DatabaseService.importConversations, DatabaseService.importOne, hv,
    DatabaseService.encodeConversationWithMessages, Json.getField, Json.strField, List.lookup,
    foldl_messagesAdd_encode, DatabaseService.emptyDB, importedSingletonDB]

theorem readback_importedSingletonDB (uNew : String) (c : Conversation) (now : Nat)
    (msgs : List Message) (hs : msgs.Pairwise (fun a b => a.timestamp ≤ b.timestamp)) :
    DatabaseService.getMessagesForConversation uNew (importedSingletonDB uNew c now msgs) =
      importedMessages uNew 0 msgs := by
  show DatabaseService.sortByTimestamp
    ((importedMessages uNew 0 msgs).filter (fun m => m.conversationId == uNew)) = _
  rw [importedMessages_filter_self]
  exact sortByTimestamp_eq_self _ (importedMessages_pairwise uNew 0 msgs hs)

/-! Claim theorems. -/

/-- Claim C1, evaluated at the failing input: after a second invoke supersedes
the first (aborting controller 0, with controller 1 in flight and
isGenerating true), the superseded first call's rejected provider promise still
mutates ServiceState: its catch classifies the failure into lastError and its
finally block clears the generating flag and the controller slot of the
in-flight second call.  Only the history stays untouched.  This contradicts the
claim that a superseded call's resolution never mutates ServiceState. -/
theorem c1_superseded_resolution_mutates_state :
    vuTrace1.2 = .pending 0 ∧
    vuTrace2.2 = .pending 1 ∧
    vuTrace2.1.isGenerating = true ∧
    vuTrace2.1.currentAbortController = some 1 ∧
    vuTrace2.1.lastError = none ∧
    vuTrace2.1.abortedControllers = [0] ∧
    vuTrace3.1.lastError =
      some { message := "Network error. Please check your internet connection.",
             errType := .NETWORK_ERROR, timestamp := 100 } ∧
    vuTrace3.1.isGenerating = false ∧
    vuTrace3.1.currentAbortController = none ∧
    vuTrace3.1.analyzedVideos = [] := by
  decide

/-- Claim C2, evaluated at the failing input: after the superseded call 1
resolves, its finally block has cleared the controller slot, so the third
invoke finds no controller to abort — call 2's controller (id 1) is never
aborted, calls 2 and 3 are in flight at the same time, and both append to the
history (call 2 appends after call 3 was issued).  This contradicts the claim
that invoke n+1 always cancels call n before call n can append. -/
theorem c2_single_flight_violated :
    sfTrace2.2 = .pending 1 ∧
    sfTrace3.1.currentAbortController = none ∧
    sfTrace4.2 = .pending 2 ∧
    sfTrace4.1.abortedControllers = [0] ∧
    sfTrace4.1.abortedControllers.contains 1 = false ∧
    sfTrace5.1.analyzedVideos.map (fun r => r.analysis) = ["A2"] ∧
    sfTrace6.1.analyzedVideos.map (fun r => r.analysis) = ["A3", "A2"] := by
  decide

/-- Claim C4: on a manager with no client handle, invoke throws the
credential-missing failure synchronously — the returned state is the input
state unchanged (no provider call is counted, no history entry appended, no
controller created) and the thrown message carries the API key marker. -/
theorem c4_uninitialized_fails_fast (req : VideoUnderstandingService.Request)
    (s : VideoUnderstandingService.State) (h : s.aiPresent = false) :
    VideoUnderstandingService.analyzeVideoStart req s =
      (s, .threwNotReady
        "AI video understanding service not ready. Please provide a valid API key.") ∧
    strIncludes
      "AI video understanding service not ready. Please provide a valid API key."
      "API key" = true := by
  constructor
  · simp [VideoUnderstandingService.analyzeVideoStart, h]
  · decide

/-- Claim C4 witness: the concrete uninitialized manager with a concrete
request. -/
theorem c4_uninitialized_fails_fast_witness :
    vuUninit.aiPresent = false ∧
    (VideoUnderstandingService.analyzeVideoStart vuReq1 vuUninit =
      (vuUninit, .threwNotReady
        "AI video understanding service not ready. Please provide a valid API key.") ∧
    strIncludes
      "AI video understanding service not ready. Please provide a valid API key."
      "API key" = true) :=
  ⟨rfl, c4_uninitialized_fails_fast vuReq1 vuUninit rfl⟩

/-- Claim C5: deleting a conversation removes, in one atomic transition, every
message referencing its id and the conversation record itself; afterwards no
message with that conversation id remains, the conversation is gone, and the
surviving records are exactly the non-matching ones. -/
theorem c5_deleteConversation_cascades (db : DB) (uuid : String) :
    ((DatabaseService.deleteConversation uuid db).messages.filter
        (fun m => m.conversationId == uuid)) = [] ∧
    DatabaseService.getConversation uuid (DatabaseService.deleteConversation uuid db) = none ∧
    (DatabaseService.deleteConversation uuid db).messages =
      db.messages.filter (fun m => m.conversationId != uuid) ∧
    (DatabaseService.deleteConversation uuid db).conversations =
      db.conversations.filter (fun c => c.uuid != uuid) := by
  refine ⟨?_, ?_, rfl, rfl⟩
  · rw [List.filter_eq_nil_iff]
    intro m hm
    have := (List.mem_filter.mp hm).2
    simp only [bne_iff_ne, ne_eq] at this
    simp [this]
  · rw [show DatabaseService.getConversation uuid (DatabaseService.deleteConversation uuid db) =
      (db.conversations.filter (fun c => c.uuid != uuid)).find?
        (fun c => c.uuid == uuid) from rfl]
    rw [List.find?_eq_none]
    intro c hc
    have := (List.mem_filter.mp hc).2
    simp only [bne_iff_ne, ne_eq] at this
    simp [this]

/-- Claim C7: when the serialized input fails to parse, the import reports
false (instead of raising) and leaves the store untouched — both at the
database layer and through the conversation-service wrapper. -/
theorem c7_import_malformed_returns_false (uuids : List String) (now : Nat) (db : DB)
    (st : ConversationService.State) :
    DatabaseService.importConversations (Except.error ()) uuids now db = (false, db) ∧
    ConversationService.importConversations (Except.error ()) uuids now st = (false, st) :=
  ⟨rfl, rfl⟩

/-- Claim C8: running the legacy migration twice in a row is a no-op the second
time — the second run reports false and changes neither the legacy storage nor
the service state (so no conversation is ever duplicated) — and the legacy
keys are removed exactly when the first run succeeds (a failed or vacuous run
leaves them in place; an absent legacy key makes the run a safe no-op). -/
theorem c8_migration_idempotent (ls : ConversationService.LocalStorageState)
    (st : ConversationService.State) (us1 us2 : List String) (n1 n2 : Nat) :
    (ConversationService.migrateFromLocalStorage
        (ConversationService.migrateFromLocalStorage ls us1 n1 st).2.1 us2 n2
        (ConversationService.migrateFromLocalStorage ls us1 n1 st).2.2).1 = false ∧
    (ConversationService.migrateFromLocalStorage
        (ConversationService.migrateFromLocalStorage ls us1 n1 st).2.1 us2 n2
        (ConversationService.migrateFromLocalStorage ls us1 n1 st).2.2).2.1 =
      (ConversationService.migrateFromLocalStorage ls us1 n1 st).2.1 ∧
    (ConversationService.migrateFromLocalStorage
        (ConversationService.migrateFromLocalStorage ls us1 n1 st).2.1 us2 n2
        (ConversationService.migrateFromLocalStorage ls us1 n1 st).2.2).2.2 =
      (ConversationService.migrateFromLocalStorage ls us1 n1 st).2.2 ∧
    (ConversationService.migrateFromLocalStorage ls us1 n1 st).2.1 =
      cond (ConversationService.migrateFromLocalStorage ls us1 n1 st).1
        { conversationsItem := none, activeConversationItem := none } ls := by
  obtain ⟨item, act⟩ := ls
  cases item with
  | none => exact ⟨rfl, rfl, rfl, rfl⟩
  | some x =>
    cases x with
    | error e => exact ⟨rfl, rfl, rfl, rfl⟩
    | ok j => cases j <;> exact ⟨rfl, rfl, rfl, rfl⟩

/-- Claim C3 counterexample: a failure whose message contains the
permission-denied marker but also the cancellation marker is treated as a
cancellation and rethrown before classification — it is not classified as a
credential rejection and the credential validity flag is not flipped. -/
theorem c3_permission_marker_not_always_credential :
    strIncludes "Request was cancelled: PERMISSION_DENIED" "PERMISSION_DENIED" = true ∧
    GoogleGenAiService.handleFailure "Error" "Request was cancelled: PERMISSION_DENIED" =
      .rethrowCancelled ∧
    GoogleGenAiService.applyCredentialEffect apiKeyValidState
      (GoogleGenAiService.handleFailure "Error" "Request was cancelled: PERMISSION_DENIED") =
      apiKeyValidState ∧
    apiKeyValidState.isValidated = true := by
  decide

/-- Claim C3 amended: for failures not recognised as cancellations (name
AbortError or a message containing the cancellation marker, which are rethrown
before classification), the classification chain matches the message in fixed
order with first match winning — credential or permission-denied markers first
(classified as the credential rejection kind, flipping the credential validity
flag to invalid), then rate limit or quota, then network or fetch, then
invalid or bad request, with Unknown as the fallback. -/
theorem c3_classification_order (name msg : String) (st : ApiKeyService.State)
    (h : (name == "AbortError" || strIncludes msg "cancelled") = false) :
    ((strIncludes msg "API key" || strIncludes msg "PERMISSION_DENIED") = true →
      GoogleGenAiService.handleFailure name msg =
        .classified .API_KEY_MISSING
          "Invalid or unauthorized API key. Please check your API key." true ∧
      (GoogleGenAiService.applyCredentialEffect st
        (GoogleGenAiService.handleFailure name msg)).isValidated = false) ∧
    ((strIncludes msg "API key" || strIncludes msg "PERMISSION_DENIED") = false →
      (strIncludes msg "rate limit" || strIncludes msg "quota") = true →
      GoogleGenAiService.handleFailure name msg =
        .classified .RATE_LIMIT "Rate limit exceeded. Please try again later." false) ∧
    ((strIncludes msg "API key" || strIncludes msg "PERMISSION_DENIED") = false →
      (strIncludes msg "rate limit" || strIncludes msg "quota") = false →
      (strIncludes msg "network" || strIncludes msg "fetch") = true →
      GoogleGenAiService.handleFailure name msg =
        .classified .NETWORK_ERROR
          "Network error. Please check your internet connection." false) ∧
    ((strIncludes msg "API key" || strIncludes msg "PERMISSION_DENIED") = false →
      (strIncludes msg "rate limit" || strIncludes msg "quota") = false →
      (strIncludes msg "network" || strIncludes msg "fetch") = false →
      (strIncludes msg "invalid" || strIncludes msg "bad request") = true →
      GoogleGenAiService.handleFailure name msg =
        .classified .INVALID_REQUEST
          "Invalid request. Please check your input parameters." false) ∧
    ((strIncludes msg "API key" || strIncludes msg "PERMISSION_DENIED") = false →
      (strIncludes msg "rate limit" || strIncludes msg "quota") = false →
      (strIncludes msg "network" || strIncludes msg "fetch") = false →
      (strIncludes msg "invalid" || strIncludes msg "bad request") = false →
      msg ≠ "" →
      GoogleGenAiService.handleFailure name msg = .classified .UNKNOWN_ERROR msg false) ∧
    ((strIncludes msg "API key" || strIncludes msg "PERMISSION_DENIED") = false →
      (strIncludes msg "rate limit" || strIncludes msg "quota") = false →
      (strIncludes msg "network" || strIncludes msg "fetch") = false →
      (strIncludes msg "invalid" || strIncludes msg "bad request") = false →
      msg = "" →
      GoogleGenAiService.handleFailure name msg =
        .classified .UNKNOWN_ERROR "An unexpected error occurred." false) := by
  refine ⟨?_, ?_, ?_, ?_, ?_, ?_⟩
  · intro h1
    constructor
    · simp [GoogleGenAiService.handleFailure, h, h1]
    · simp [GoogleGenAiService.handleFailure, h, h1,
        GoogleGenAiService.applyCredentialEffect, ApiKeyService.markAsInvalid]
  · intro h1 h2
    simp [GoogleGenAiService.handleFailure, h, h1, h2]
  · intro h1 h2 h3
    simp [GoogleGenAiService.handleFailure, h, h1, h2, h3]
  · intro h1 h2 h3 h4
    simp [GoogleGenAiService.handleFailure, h, h1, h2, h3, h4]
  · intro h1 h2 h3 h4 h5
    simp [GoogleGenAiService.handleFailure, h, h1, h2, h3, h4, bne_iff_ne, h5]
  · intro h1 h2 h3 h4 h5
    subst h5
    have hname : (name == "AbortError") = false := (Bool.or_eq_false_iff.mp h).1
    simp [GoogleGenAiService.handleFailure, hname,
      show strIncludes "" "cancelled" = false from by decide,
      show strIncludes "" "API key" = false from by decide,
      show strIncludes "" "PERMISSION_DENIED" = false from by decide,
      show strIncludes "" "rate limit" = false from by decide,
      show strIncludes "" "quota" = false from by decide,
      show strIncludes "" "network" = false from by decide,
      show strIncludes "" "fetch" = false from by decide,
      show strIncludes "" "invalid" = false from by decide,
      show strIncludes "" "bad request" = false from by decide]

/-- Claim C3 witness: the amended classification applied to a bare
permission-denied failure on a validated credential. -/
theorem c3_classification_order_witness :
    (("Error" == "AbortError" || strIncludes "PERMISSION_DENIED" "cancelled") = false) ∧
    (((strIncludes "PERMISSION_DENIED" "API key"
        || strIncludes "PERMISSION_DENIED" "PERMISSION_DENIED") = true →
      GoogleGenAiService.handleFailure "Error" "PERMISSION_DENIED" =
        .classified .API_KEY_MISSING
          "Invalid or unauthorized API key. Please check your API key." true ∧
      (GoogleGenAiService.applyCredentialEffect apiKeyValidState
        (GoogleGenAiService.handleFailure "Error" "PERMISSION_DENIED")).isValidated = false) ∧
    ((strIncludes "PERMISSION_DENIED" "API key"
        || strIncludes "PERMISSION_DENIED" "PERMISSION_DENIED") = false →
      (strIncludes "PERMISSION_DENIED" "rate limit"
        || strIncludes "PERMISSION_DENIED" "quota") = true →
      GoogleGenAiService.handleFailure "Error" "PERMISSION_DENIED" =
        .classified .RATE_LIMIT "Rate limit exceeded. Please try again later." false) ∧
    ((strIncludes "PERMISSION_DENIED" "API key"
        || strIncludes "PERMISSION_DENIED" "PERMISSION_DENIED") = false →
      (strIncludes "PERMISSION_DENIED" "rate limit"
        || strIncludes "PERMISSION_DENIED" "quota") = false →
      (strIncludes "PERMISSION_DENIED" "network"
        || strIncludes "PERMISSION_DENIED" "fetch") = true →
      GoogleGenAiService.handleFailure "Error" "PERMISSION_DENIED" =
        .classified .NETWORK_ERROR
          "Network error. Please check your internet connection." false) ∧
    ((strIncludes "PERMISSION_DENIED" "API key"
        || strIncludes "PERMISSION_DENIED" "PERMISSION_DENIED") = false →
      (strIncludes "PERMISSION_DENIED" "rate limit"
        || strIncludes "PERMISSION_DENIED" "quota") = false →
      (strIncludes "PERMISSION_DENIED" "network"
        || strIncludes "PERMISSION_DENIED" "fetch") = false →
      (strIncludes "PERMISSION_DENIED" "invalid"
        || strIncludes "PERMISSION_DENIED" "bad request") = true →
      GoogleGenAiService.handleFailure "Error" "PERMISSION_DENIED" =
        .classified .INVALID_REQUEST
          "Invalid request. Please check your input parameters." false) ∧
    ((strIncludes "PERMISSION_DENIED" "API key"
        || strIncludes "PERMISSION_DENIED" "PERMISSION_DENIED") = false →
      (strIncludes "PERMISSION_DENIED" "rate limit"
        || strIncludes "PERMISSION_DENIED" "quota") = false →
      (strIncludes "PERMISSION_DENIED" "network"
        || strIncludes "PERMISSION_DENIED" "fetch") = false →
      (strIncludes "PERMISSION_DENIED" "invalid"
        || strIncludes "PERMISSION_DENIED" "bad request") = false →
      "PERMISSION_DENIED" ≠ "" →
      GoogleGenAiService.handleFailure "Error" "PERMISSION_DENIED" =
        .classified .UNKNOWN_ERROR "PERMISSION_DENIED" false) ∧
    ((strIncludes "PERMISSION_DENIED" "API key"
        || strIncludes "PERMISSION_DENIED" "PERMISSION_DENIED") = false →
      (strIncludes "PERMISSION_DENIED" "rate limit"
        || strIncludes "PERMISSION_DENIED" "quota") = false →
      (strIncludes "PERMISSION_DENIED" "network"
        || strIncludes "PERMISSION_DENIED" "fetch") = false →
      (strIncludes "PERMISSION_DENIED" "invalid"
        || strIncludes "PERMISSION_DENIED" "bad request") = false →
      "PERMISSION_DENIED" = "" →
      GoogleGenAiService.handleFailure "Error" "PERMISSION_DENIED" =
        .classified .UNKNOWN_ERROR "An unexpected error occurred." false)) :=
  ⟨by decide, c3_classification_order "Error" "PERMISSION_DENIED" apiKeyValidState (by decide)⟩

/-- Claim C9 counterexample: the content consists of six characters (under 50,
so the claim predicts the title is exactly the content with no ellipsis), yet
the derived title is the trimmed prefix with an ellipsis appended, because the
source trims the prefix and compares the trimmed length with the full
length. -/
theorem c9_trailing_whitespace_title :
    ConversationService.generateTitle "Hello " = "Hello..." ∧
    ConversationService.generateTitle "Hello " ≠ "Hello " ∧
    "Hello ".length ≤ 50 := by
  decide

/-- Claim C9 amended: adding the first user message to the active conversation
whose cached transcript is empty sets the conversation title to
generateTitle of the content, which is the whitespace-trimmed first 50
characters with an ellipsis appended exactly when the trimmed prefix is
shorter than the whole content: for content with no leading or trailing
whitespace and at most 50 characters the title is the content itself (so
content Hello yields title Hello), and for content over 50 characters the
title is the trimmed 50-character prefix plus the ellipsis. -/
theorem c9_first_user_message_title (st : ConversationService.State) (u : String)
    (c c0 : Conversation) (content : String) (meta : Option String) (uu : String) (now : Nat)
    (hact : st.activeConversationUuid = some u)
    (hcache : st.conversationsCache.find? (fun p => p.1.uuid == u) = some (c, []))
    (hdb : DatabaseService.getConversation u st.db = some c0) :
    DatabaseService.getConversation u
        (ConversationService.addMessage content "user" meta uu now st).db =
      some { c0 with title := ConversationService.generateTitle content, updatedAt := now } ∧
    (jsTrim content = content → content.length ≤ 50 →
      ConversationService.generateTitle content = content) ∧
    (50 < content.length →
      ConversationService.generateTitle content =
        jsTrim (jsSubstring0 50 content) ++ "...") := by
  refine ⟨?_, ?_, ?_⟩
  · have hpres1 : ∀ x : Conversation,
        ((fun x : Conversation =>
          if x.uuid == u then { x with updatedAt := now } else x) x).uuid = x.uuid := by
      intro x; by_cases hx : x.uuid == u <;> simp [hx]
    have hpres2 : ∀ x : Conversation,
        ((fun x : Conversation =>
          if x.uuid == u then
            { x with title := ConversationService.generateTitle content, updatedAt := now }
          else x) x).uuid = x.uuid := by
      intro x; by_cases hx : x.uuid == u <;> simp [hx]
    have hdbf : st.db.conversations.find? (fun x => x.uuid == u) = some c0 := hdb
    have hc0 : (c0.uuid == u) = true :=
      List.find?_some (p := fun x : Conversation => x.uuid == u) hdbf
    have hp1 : ∀ x : Conversation,
        ((if x.uuid == u then { x with updatedAt := now } else x).uuid == u) =
          (x.uuid == u) := by
      intro x; by_cases hx : (x.uuid == u) = true <;> simp [hx]
    have hp2 : ∀ x : Conversation,
        ((if x.uuid == u then
            { x with title := ConversationService.generateTitle content, updatedAt := now }
          else x).uuid == u) = (x.uuid == u) := by
      intro x; by_cases hx : (x.uuid == u) = true <;> simp [hx]
    simp only [ConversationService.addMessage, hact, hcache]
    rw [if_pos (by decide)]
    show DatabaseService.getConversation u
      (DatabaseService.updateConversationTitle u (ConversationService.generateTitle content)
        now (DatabaseService.addMessage
          { conversationId := u, content := content, role := "user", timestamp := now,
            model := none, metadata := meta } now st.db).2) = _
    show ((st.db.conversations.map
        (fun x => if x.uuid == u then { x with updatedAt := now } else x)).map
        (fun x => if x.uuid == u then
          { x with title := ConversationService.generateTitle content, updatedAt := now }
        else x)).find? (fun x => x.uuid == u) = _
    rw [find?_map_comm _ _ _ hp2, find?_map_comm _ _ _ hp1, hdbf]
    have hceq : c0.uuid = u := by simpa using hc0
    simp [hceq]
  · intro h1 h2
    have hsub : jsSubstring0 50 content = content := by
      show String.mk (content.data.take 50) = content
      rw [List.take_of_length_le h2]
    simp [ConversationService.generateTitle, hsub, h1]
  · intro h1
    have hlen : (jsTrim (jsSubstring0 50 content)).length ≤ 50 := by
      refine le_trans (jsTrim_length_le _) ?_
      show (content.data.take 50).length ≤ 50
      simp [List.length_take]
    have : ((jsTrim (jsSubstring0 50 content)).length == content.length) = false := by
      simp only [beq_eq_false_iff_ne, ne_eq]
      omega
    simp [ConversationService.generateTitle, this]

/-- Claim C9 witness: on the concrete just-created empty conversation, adding
the first user message Hello sets the title to Hello. -/
theorem c9_first_user_message_title_witness :
    (stNine.activeConversationUuid = some "c9" ∧
     stNine.conversationsCache.find? (fun p => p.1.uuid == "c9") = some (convNine, []) ∧
     DatabaseService.getConversation "c9" stNine.db = some convNine) ∧
    (DatabaseService.getConversation "c9"
        (ConversationService.addMessage "Hello" "user" none "u-new" 7 stNine).db =
      some { convNine with
        title := ConversationService.generateTitle "Hello", updatedAt := 7 } ∧
    (jsTrim "Hello" = "Hello" → "Hello".length ≤ 50 →
      ConversationService.generateTitle "Hello" = "Hello") ∧
    (50 < "Hello".length →
      ConversationService.generateTitle "Hello" =
        jsTrim (jsSubstring0 50 "Hello") ++ "...")) :=
  ⟨⟨rfl, by decide, by decide⟩,
    c9_first_user_message_title stNine "c9" convNine convNine "Hello" none "u-new" 7
      rfl (by decide) (by decide)⟩

/-- Claim C10 counterexample: updating a message that is not the last of its
conversation moves it to the end of the transcript, because the update sets
the message timestamp to the current time and the transcript is ordered by
timestamp — the readback order changes from ids 1, 2 to ids 2, 1. -/
theorem c10_update_moves_message :
    (DatabaseService.getMessagesForConversation "c" dbTwo).map (fun m => m.id) = [1, 2] ∧
    (DatabaseService.getMessagesForConversation "c"
        (DatabaseService.updateMessage 1 "x" 30 dbTwo)).map (fun m => m.id) = [2, 1] ∧
    (DatabaseService.updateMessage 1 "x" 30 dbTwo).messages.map (fun m => m.content) =
      ["x", "b"] := by
  decide

/-- Claim C10 amended: updateMessage replaces the content of the addressed
message and sets its timestamp to the current time, touching no other field
and no other message; transcripts of other conversations are unchanged; and
when the addressed message is the last one of its conversation (in store order,
with no earlier timestamp above its own) and the current time is not below the
other timestamps, its position in the transcript read back is unchanged — it
stays the final element, with the prefix of the transcript identical. -/
theorem c10_updateMessage_frame (db : DB) (u : String) (k : Nat) (G : List Message)
    (m : Message) (content : String) (now : Nat)
    (hsplit : db.messages.filter (fun x => x.conversationId == u) = G ++ [m])
    (hid : m.id = k)
    (hG : ∀ y ∈ G, y.id ≠ k ∧ y.timestamp ≤ m.timestamp ∧ y.timestamp ≤ now)
    (hk : ∀ y ∈ db.messages, y.id = k → y.conversationId = u) :
    DatabaseService.getMessagesForConversation u db =
      DatabaseService.sortByTimestamp G ++ [m] ∧
    DatabaseService.getMessagesForConversation u
        (DatabaseService.updateMessage k content now db) =
      DatabaseService.sortByTimestamp G ++
        [{ m with content := content, timestamp := now }] ∧
    (∀ v, v ≠ u →
      DatabaseService.getMessagesForConversation v
          (DatabaseService.updateMessage k content now db) =
        DatabaseService.getMessagesForConversation v db) := by
  have hpres : ∀ x : Message,
      ((fun x : Message =>
        if x.id == k then { x with content := content, timestamp := now } else x) x).conversationId
        = x.conversationId := by
    intro x; by_cases hx : (x.id == k) = true <;> simp [hx]
  have hcomm : ∀ w : String,
      (DatabaseService.updateMessage k content now db).messages.filter
          (fun x => x.conversationId == w) =
        (db.messages.filter (fun x => x.conversationId == w)).map
          (fun x => if x.id == k then { x with content := content, timestamp := now } else x) := by
    intro w
    show (db.messages.map _).filter _ = _
    refine filter_map_comm _ _ _ ?_
    intro x
    rw [hpres x]
  refine ⟨?_, ?_, ?_⟩
  · show DatabaseService.sortByTimestamp _ = _
    rw [hsplit]
    exact sortByTimestamp_append_max G m (fun y hy => (hG y hy).2.1)
  · show DatabaseService.sortByTimestamp _ = _
    rw [hcomm u, hsplit, List.map_append]
    rw [map_id_of_mem G _ (fun y hy => by
      have := (hG y hy).1
      simp [beq_eq_false_iff_ne.mpr this])]
    have hm : ((m.id == k) = true) := by simp [hid]
    simp only [List.map_singleton]
    rw [if_pos hm]
    exact sortByTimestamp_append_max G _ (fun y hy => (hG y hy).2.2)
  · intro v hv
    show DatabaseService.sortByTimestamp _ = DatabaseService.sortByTimestamp _
    have hfix : ∀ y ∈ db.messages.filter (fun x => x.conversationId == v),
        (fun x : Message =>
          if x.id == k then { x with content := content, timestamp := now } else x) y = y := by
      intro y hy
      have hyv : y.conversationId = v := by
        have := (List.mem_filter.mp hy).2
        simpa using this
      have hymem : y ∈ db.messages := (List.mem_filter.mp hy).1
      have hyk : (y.id == k) = false := by
        refine beq_eq_false_iff_ne.mpr ?_
        intro hyk
        exact hv (hyv ▸ (hk y hymem hyk) ▸ rfl)
      simp [hyk]
    rw [hcomm v, map_id_of_mem _ _ hfix]

/-- Claim C10 witness: updating the last message of the concrete two-message
store keeps its final position in the transcript, only content and timestamp
change, and other conversations read back unchanged. -/
theorem c10_updateMessage_frame_witness :
    (dbTwo.messages.filter (fun x => x.conversationId == "c") = [msgA] ++ [msgB] ∧
     msgB.id = 2 ∧
     (∀ y ∈ [msgA], y.id ≠ 2 ∧ y.timestamp ≤ msgB.timestamp ∧ y.timestamp ≤ 30) ∧
     (∀ y ∈ dbTwo.messages, y.id = 2 → y.conversationId = "c")) ∧
    (DatabaseService.getMessagesForConversation "c" dbTwo =
      DatabaseService.sortByTimestamp [msgA] ++ [msgB] ∧
    DatabaseService.getMessagesForConversation "c"
        (DatabaseService.updateMessage 2 "new" 30 dbTwo) =
      DatabaseService.sortByTimestamp [msgA] ++
        [{ msgB with content := "new", timestamp := 30 }] ∧
    (∀ v, v ≠ "c" →
      DatabaseService.getMessagesForConversation v
          (DatabaseService.updateMessage 2 "new" 30 dbTwo) =
        DatabaseService.getMessagesForConversation v dbTwo)) :=
  ⟨⟨by decide, by decide, by decide, by decide⟩,
    c10_updateMessage_frame dbTwo "c" 2 [msgA] msgB "new" 30
      (by decide) (by decide) (by decide) (by decide)⟩

/-- Claim C6: exporting a conversation and importing the blob into the empty
store succeeds and yields exactly one conversation, stored under the freshly
generated uuid (never the exported one: the import never reads the blob's
uuid), whose transcript read back has the same roles and contents in the same
order as the original transcript. -/
theorem c6_export_import_roundtrip (db : DB) (u uNew : String) (c : Conversation) (now : Nat)
    (hc : DatabaseService.getConversation u db = some c) (hfresh : uNew ≠ u) :
    DatabaseService.exportConversation u db =
      some (DatabaseService.encodeConversationWithMessages c
        (DatabaseService.getMessagesForConversation u db)) ∧
    DatabaseService.importConversations
        (.ok (DatabaseService.encodeConversationWithMessages c
          (DatabaseService.getMessagesForConversation u db))) [uNew] now
        DatabaseService.emptyDB =
      (true, importedSingletonDB uNew c now
        (DatabaseService.getMessagesForConversation u db)) ∧
    (importedSingletonDB uNew c now
        (DatabaseService.getMessagesForConversation u db)).conversations.map
      (fun x => x.uuid) = [uNew] ∧
    (importedSingletonDB uNew c now
        (DatabaseService.getMessagesForConversation u db)).conversations.all
      (fun x => x.uuid != u) = true ∧
    (DatabaseService.getMessagesForConversation uNew
        (importedSingletonDB uNew c now
          (DatabaseService.getMessagesForConversation u db))).map
      (fun m => (m.role, m.content)) =
      (DatabaseService.getMessagesForConversation u db).map
        (fun m => (m.role, m.content)) := by
  refine ⟨?_, ?_, rfl, ?_, ?_⟩
  · simp [DatabaseService.exportConversation, DatabaseService.getConversationWithMessages, hc]
  · exact import_encodeCWM c (DatabaseService.getMessagesForConversation u db) uNew now
  · simp [importedSingletonDB, bne_iff_ne, hfresh]
  · rw [readback_importedSingletonDB uNew c now
      (DatabaseService.getMessagesForConversation u db)
      (sortByTimestamp_pairwise _)]
    exact importedMessages_map_role_content uNew 0 _

/-- Claim C6 witness: the concrete two-message conversation exported and
re-imported into the empty store under the fresh uuid. -/
theorem c6_export_import_roundtrip_witness :
    (DatabaseService.getConversation "orig" dbOrig = some convOrig ∧ "fresh" ≠ "orig") ∧
    (DatabaseService.exportConversation "orig" dbOrig =
      some (DatabaseService.encodeConversationWithMessages convOrig
        (DatabaseService.getMessagesForConversation "orig" dbOrig)) ∧
    DatabaseService.importConversations
        (.ok (DatabaseService.encodeConversationWithMessages convOrig
          (DatabaseService.getMessagesForConversation "orig" dbOrig))) ["fresh"] 50
        DatabaseService.emptyDB =
      (true, importedSingletonDB "fresh" convOrig 50
        (DatabaseService.getMessagesForConversation "orig" dbOrig)) ∧
    (importedSingletonDB "fresh" convOrig 50
        (DatabaseService.getMessagesForConversation "orig" dbOrig)).conversations.map
      (fun x => x.uuid) = ["fresh"] ∧
    (importedSingletonDB "fresh" convOrig 50
        (DatabaseService.getMessagesForConversation "orig" dbOrig)).conversations.all
      (fun x => x.uuid != "orig") = true ∧
    (DatabaseService.getMessagesForConversation "fresh"
        (importedSingletonDB "fresh" convOrig 50
          (DatabaseService.getMessagesForConversation "orig" dbOrig))).map
      (fun m => (m.role, m.content)) =
      (DatabaseService.getMessagesForConversation "orig" dbOrig).map
        (fun m => (m.role, m.content))) :=
  ⟨⟨by decide, by decide⟩,
    c6_export_import_roundtrip dbOrig "orig" "fresh" convOrig 50 (by decide) (by decide)⟩
